/-
Verification of the Zoho/Baserow webhook reconciliation service.

Shallow embedding of the JavaScript sources:
  - src/index.js                (main variant: void-and-recreate policy)
  - src/unnamed/part_000        (two variants: update-in-place policies)
  - src/unnamed/part_001        (two variants: update-with-adjust policies)

JavaScript numbers are modelled as rationals (Rat); `parseFloat(x) || 0`
on payload fields is modelled as `Option Rat` with `Option.getD 0`
(a missing or unparsable field behaves as 0).  Falsy string fields
(`x || dflt`) are modelled as `Option String` with `Option.getD dflt`.
Thrown JavaScript exceptions are modelled with `Except` or with explicit
error outcomes; HTTP side effects of the webhook handler are modelled as a
trace of ledger-write events together with the final HTTP status code.
-/
import Mathlib

namespace ZohoBaserow

/-! ## AuthGateway: makeZohoRequest (src/index.js lines 38-62)

An attempt outcome models the result of one `axios(config)` call: either a
successful response carrying data, or a failure that optionally carries an
HTTP error response (status code and an optional Zoho error code from the
response body).  A failure without a response models a network-level error. -/

/-- HTTP error response attached to a failed axios call: status code, and
the Zoho-specific error code from the response body when present. -/
structure ErrResponse where
  status : Nat
  code : Option Int
deriving DecidableEq, Repr

/-- Outcome of a single HTTP attempt: success with response data, or a
failure optionally carrying an error response. -/
inductive Attempt where
  | ok (data : Nat)
  | fail (resp : Option ErrResponse)
deriving DecidableEq, Repr

/-- Embeds the `isTokenExpired` test of `makeZohoRequest`
(src/index.js lines 49-51): the error has a response with HTTP status 401,
or the response body carries the Zoho-specific code 57. -/
def isTokenExpired : Option ErrResponse → Bool
  | none => false
  | some r => r.status == 401 || r.code == some 57

/-- Observable result of `makeZohoRequest`: the returned data or thrown
error message, together with the number of HTTP attempts made against the
ledger and the number of token refreshes performed. -/
structure ZohoResult where
  outcome : Except String Nat
  attempts : Nat
  refreshes : Nat
deriving Repr

/-- Embeds `makeZohoRequest(config, retry)` (src/index.js lines 38-62).
The environment `env` gives the outcome of the n-th HTTP attempt; `idx` is
the index of the current attempt; `refreshOk` tells whether the token
refresh endpoint succeeds (`refreshZohoToken`, lines 18-35, throws on
failure, which aborts the in-flight call).  On a token-expired failure with
`retry` true, the source refreshes and re-invokes itself with `retry` set
to false; counters record attempts and refreshes. -/
def makeZohoRequest (env : Nat → Attempt) (refreshOk : Bool) (retry : Bool)
    (idx : Nat) : ZohoResult :=
  match env idx with
  | .ok d => { outcome := .ok d, attempts := 1, refreshes := 0 }
  | .fail r =>
    if isTokenExpired r && retry then
      if refreshOk then
        let rest := makeZohoRequest env refreshOk false (idx + 1)
        { outcome := rest.outcome, attempts := rest.attempts + 1,
          refreshes := rest.refreshes + 1 }
      else
        { outcome := .error "Failed to refresh Zoho token", attempts := 1,
          refreshes := 1 }
    else
      { outcome := .error "API request failed", attempts := 1, refreshes := 0 }
termination_by (if retry then 1 else 0)
decreasing_by simp_all

/-- Unfolding of `makeZohoRequest` with the retry flag cleared: any failure
of the resubmitted request is terminal. -/
theorem makeZohoRequest_false (env : Nat → Attempt) (refreshOk : Bool)
    (idx : Nat) :
    makeZohoRequest env refreshOk false idx =
      match env idx with
      | .ok d => { outcome := .ok d, attempts := 1, refreshes := 0 }
      | .fail _ =>
        { outcome := .error "API request failed", attempts := 1,
          refreshes := 0 } := by
  rw [makeZohoRequest]
  cases env idx with
  | ok d => rfl
  | fail r => simp

/-- Unfolding of `makeZohoRequest` with the retry flag set. -/
theorem makeZohoRequest_true (env : Nat → Attempt) (refreshOk : Bool)
    (idx : Nat) :
    makeZohoRequest env refreshOk true idx =
      match env idx with
      | .ok d => { outcome := .ok d, attempts := 1, refreshes := 0 }
      | .fail r =>
        if isTokenExpired r then
          if refreshOk then
            let rest := makeZohoRequest env refreshOk false (idx + 1)
            { outcome := rest.outcome, attempts := rest.attempts + 1,
              refreshes := rest.refreshes + 1 }
          else
            { outcome := .error "Failed to refresh Zoho token", attempts := 1,
              refreshes := 1 }
        else
          { outcome := .error "API request failed", attempts := 1,
            refreshes := 0 } := by
  rw [makeZohoRequest]
  cases env idx with
  | ok d => rfl
  | fail r => simp

/-- C1: a ledger request whose first attempt fails with an
authorization-failure signal (HTTP 401 or Zoho error code 57) triggers
exactly one token refresh and exactly one resubmission; a second failure of
any kind is surfaced as an error with no further refresh or retry, and the
total number of attempts never exceeds 2 (nor refreshes 1) on any input. -/
theorem makeZohoRequest_retry_once (env : Nat → Attempt) (refreshOk : Bool)
    (idx : Nat) :
    (makeZohoRequest env refreshOk true idx).attempts ≤ 2 ∧
    (makeZohoRequest env refreshOk true idx).refreshes ≤ 1 ∧
    (∀ r : Option ErrResponse, env idx = .fail r → isTokenExpired r = true →
      refreshOk = true →
      (makeZohoRequest env refreshOk true idx).attempts = 2 ∧
      (makeZohoRequest env refreshOk true idx).refreshes = 1 ∧
      (∀ r2 : Option ErrResponse, env (idx + 1) = .fail r2 →
        (makeZohoRequest env refreshOk true idx).outcome =
          .error "API request failed")) := by
  rw [makeZohoRequest_true]
  cases henv : env idx with
  | ok d => simp
  | fail r =>
    by_cases hexp : isTokenExpired r = true
    · by_cases href : refreshOk = true
      · rw [makeZohoRequest_false]
        cases henv2 : env (idx + 1) with
        | ok d2 => simp [hexp, href]
        | fail r2 => simp [hexp, href]
      · simp [hexp, href]
    · simp [hexp]

/-- Concrete run for C1: the first attempt fails with HTTP 401, the refresh
succeeds, the resubmission fails with a network error; the wrapper makes
exactly 2 attempts, 1 refresh, and surfaces the failure. -/
def envAuthFailTwice : Nat → Attempt :=
  fun n => if n == 0 then .fail (some { status := 401, code := none }) else .fail none

/-- Witness for C1 at the concrete environment `envAuthFailTwice`. -/
theorem makeZohoRequest_retry_once_witness :
    (makeZohoRequest envAuthFailTwice true true 0).attempts = 2 ∧
    (makeZohoRequest envAuthFailTwice true true 0).refreshes = 1 ∧
    (makeZohoRequest envAuthFailTwice true true 0).outcome =
      .error "API request failed" := by
  have h := makeZohoRequest_retry_once envAuthFailTwice true 0
  have h2 := h.2.2 (some { status := 401, code := none }) rfl (by decide) rfl
  exact ⟨h2.1, h2.2.1, h2.2.2 none rfl⟩

/-! ## Data model

Transaction fields mirror the Baserow payload keys used by the sources:
"Transaction ID", "Patient Name", "Services", "Services (link)", "Prices",
"Payable Amount", "Total Amount Paid", "Discount", "Date". -/

/-- One element of the "Services" (or "Services (link)") array; `value` is
`none` when the `value` key is absent or falsy (`service.value || dflt`). -/
structure ServiceEntry where
  value : Option String
deriving DecidableEq, Repr

/-- One element of the "Prices" array; `value` is the parsed rational of
`parseFloat(entry.value)`, or `none` when absent or unparsable. -/
structure PriceEntry where
  value : Option Rat
deriving DecidableEq, Repr

/-- Baserow transaction as consumed by the sources.  Numeric fields are
`Option Rat`: `none` models a missing or unparsable value, which the code
turns into 0 via `parseFloat(x) || 0`. -/
structure Transaction where
  transactionId : String
  patientName : Option String
  services : Option (List ServiceEntry)
  servicesLink : Option (List ServiceEntry)
  prices : Option (List PriceEntry)
  payableAmount : Option Rat
  totalAmountPaid : Option Rat
  discount : Option Rat
deriving DecidableEq, Repr

/-- Line item of an invoice already stored in the ledger. -/
structure LineItem where
  description : String
  rate : Rat
deriving DecidableEq, Repr

/-- Invoice as returned by the ledger; a missing `line_items` field is
modelled as the empty list (the code treats both alike:
`!existingInvoice.line_items || existingInvoice.line_items.length === 0`). -/
structure Invoice where
  invoice_id : String
  reference_number : String
  customer_id : String
  line_items : List LineItem
deriving DecidableEq, Repr

/-! ## LedgerClient: findExistingInvoice (src/index.js lines 132-153)

The lookup response is modelled as `Except Unit (Option (List Invoice))`:
`Except.error` is a failed `makeZohoRequest` (the catch branch returns
null); `Except.ok none` is a successful response whose `invoices` field is
missing, in which case `response.invoices.filter` throws a TypeError that
the same catch turns into null; `Except.ok (some l)` carries the candidate
list produced by the remote reference_number filter. -/

/-- Embeds `findExistingInvoice(transactionId)` (src/index.js 132-153):
re-filters the remote candidates locally for an exact `reference_number`
match, returns the first exact match, and returns `none` on any failure. -/
def findExistingInvoice (resp : Except Unit (Option (List Invoice)))
    (transactionId : String) : Option Invoice :=
  match resp with
  | .error _ => none
  | .ok none => none
  | .ok (some invoices) =>
    (invoices.filter (fun inv => inv.reference_number == transactionId)).head?

/-- C7: `findExistingInvoice` never throws (it is a total function into
`Option Invoice`); it returns an invoice only when that invoice is one of
the remote candidates and its `reference_number` is exactly the requested
transaction id; it returns `none` when the lookup request fails, and also
when no candidate matches exactly. -/
theorem findExistingInvoice_exact_or_none
    (resp : Except Unit (Option (List Invoice))) (transactionId : String) :
    (∀ inv : Invoice, findExistingInvoice resp transactionId = some inv →
      inv.reference_number = transactionId ∧
      ∃ invoices : List Invoice, resp = .ok (some invoices) ∧ inv ∈ invoices) ∧
    (∀ e : Unit, resp = .error e → findExistingInvoice resp transactionId = none) ∧
    (∀ invoices : List Invoice, resp = .ok (some invoices) →
      (∀ inv ∈ invoices, inv.reference_number ≠ transactionId) →
      findExistingInvoice resp transactionId = none) := by
  refine ⟨?_, ?_, ?_⟩
  · intro inv hsome
    match resp with
    | .error _ => simp [findExistingInvoice] at hsome
    | .ok none => simp [findExistingInvoice] at hsome
    | .ok (some invoices) =>
      simp only [findExistingInvoice] at hsome
      have hmem := List.mem_of_mem_head? hsome
      have hfilter := List.mem_filter.mp hmem
      refine ⟨by simpa using hfilter.2, invoices, rfl, hfilter.1⟩
  · intro e herr
    subst herr
    rfl
  · intro invoices hok hnone
    subst hok
    simp only [findExistingInvoice]
    have : invoices.filter (fun inv => inv.reference_number == transactionId) = [] := by
      apply List.filter_eq_nil_iff.mpr
      intro inv hmem
      simpa using hnone inv hmem
    simp [this]

/-- Witness for C7: a failed lookup yields `none`, and a successful lookup
whose only candidate has a different reference number also yields `none`,
while an exact match is returned with its reference number equal to the
requested id. -/
theorem findExistingInvoice_exact_or_none_witness :
    findExistingInvoice (.error ()) "TX-1" = none ∧
    findExistingInvoice
      (.ok (some [{ invoice_id := "I9", reference_number := "TX-10",
                    customer_id := "C1", line_items := [] }])) "TX-1" = none ∧
    ({ invoice_id := "I7", reference_number := "TX-1", customer_id := "C1",
       line_items := [] } : Invoice).reference_number = "TX-1" := by
  refine ⟨?_, ?_, ?_⟩
  · exact (findExistingInvoice_exact_or_none (.error ()) "TX-1").2.1 () rfl
  · exact (findExistingInvoice_exact_or_none _ "TX-1").2.2
      [{ invoice_id := "I9", reference_number := "TX-10", customer_id := "C1",
         line_items := [] }] rfl (by decide)
  · have := (findExistingInvoice_exact_or_none
      (.ok (some [{ invoice_id := "I7", reference_number := "TX-1",
                    customer_id := "C1", line_items := [] }])) "TX-1").1
      { invoice_id := "I7", reference_number := "TX-1", customer_id := "C1",
        line_items := [] } (by decide)
    exact this.1

/-! ## Webhook handler (src/index.js lines 306-402)

The handler is embedded as a pure function from a request body and an
environment of ledger-call outcomes to the pair of the HTTP status code and
the ordered trace of ledger-write calls issued.  Read-only lookups
(`findExistingInvoice`, the invoice fetch inside `recordPayment`) are not
write events; their results are supplied by the environment. -/

/-- Ledger-write call issued by the webhook handler, in issue order. -/
inductive Event where
  | deletePayments (invoiceId : String)
  | voidInv (invoiceId : String)
  | createInv (transactionId : String)
  | recordPay (invoiceId : String) (amount : Rat)
deriving DecidableEq, Repr

/-- Outcomes of the ledger calls the handler may issue:
`existingInvoice` is the result of `findExistingInvoice` (already `none`
on lookup failure, per its own catch); `deletePaymentsOk` and `voidOk`
tell whether `deletePaymentsForInvoice` and `voidInvoice` succeed;
`createResult` is the invoice returned by `createInvoice` or `none` when
it throws; `recordOk` tells whether `recordPayment` succeeds. -/
structure HandlerEnv where
  existingInvoice : Option Invoice
  deletePaymentsOk : Bool
  voidOk : Bool
  createResult : Option Invoice
  recordOk : Bool
deriving DecidableEq, Repr

/-- Request body of POST /webhook: either a bare transaction object or an
object with an `items` array (the transaction shape has no `items` key). -/
inductive Body where
  | bare (t : Transaction)
  | withItems (items : List Transaction)
deriving DecidableEq, Repr

/-- Embeds `const transaction = req.body.items[0]` (src/index.js line 310):
on a bare transaction body, `req.body.items` is undefined and indexing it
throws a TypeError (caught by the outer handler); on an empty `items`
array, `items[0]` is undefined and the subsequent field access throws. -/
def extractTransaction : Body → Option Transaction
  | .bare _ => none
  | .withItems [] => none
  | .withItems (t :: _) => some t

/-- Embeds `transaction["Services"]?.map(service => service.value) || []`
(src/index.js line 350); an absent `value` key stays distinguishable from
every string, as it is under `JSON.stringify` (undefined prints as null). -/
def newServices (t : Transaction) : List (Option String) :=
  match t.services with
  | none => []
  | some l => l.map (fun s => s.value)

/-- Embeds `existingInvoice.line_items.map(item => item.description)`
(src/index.js line 349), injected into `Option String` so it is compared
against `newServices` the way `JSON.stringify` equality compares the two
arrays. -/
def existingServices (inv : Invoice) : List (Option String) :=
  inv.line_items.map (fun li => some li.description)

/-- Embeds `existingInvoice.line_items.reduce((sum, item) => sum + item.rate, 0)`
(src/index.js line 352). -/
def existingTotal (inv : Invoice) : Rat :=
  inv.line_items.foldl (fun sum li => sum + li.rate) 0

/-- Embeds `parseFloat(transaction["Payable Amount"]) || 0`
(src/index.js line 353). -/
def newTotal (t : Transaction) : Rat :=
  t.payableAmount.getD 0

/-- Embeds the change test of src/index.js lines 355-356:
`JSON.stringify(existingServices) !== JSON.stringify(newServices) ||
existingTotal !== newTotal`. -/
def invoiceChanged (t : Transaction) (inv : Invoice) : Bool :=
  decide (existingServices inv ≠ newServices t) ||
    decide (existingTotal inv ≠ newTotal t)

/-- Embeds the void-and-recreate block (src/index.js lines 326-346 and the
identical lines 359-379): delete the payments attached to the existing
invoice, void it, create a replacement from the transaction, and record a
payment when `Total Amount Paid` is positive.  A failure of the payment
deletion or of the void is rethrown (lines 332-335) and reaches the outer
catch, producing a 500; `voidInvoice` also throws before calling the
ledger when the invoice id is falsy (src/index.js lines 115-117). -/
def voidAndRecreate (env : HandlerEnv) (t : Transaction) (inv : Invoice) :
    Nat × List Event :=
  if env.deletePaymentsOk = false then
    (500, [.deletePayments inv.invoice_id])
  else if inv.invoice_id = "" then
    (500, [.deletePayments inv.invoice_id])
  else if env.voidOk = false then
    (500, [.deletePayments inv.invoice_id, .voidInv inv.invoice_id])
  else
    match env.createResult with
    | none =>
      (500, [.deletePayments inv.invoice_id, .voidInv inv.invoice_id,
             .createInv t.transactionId])
    | some newInv =>
      if t.totalAmountPaid.getD 0 > 0 then
        if env.recordOk then
          (200, [.deletePayments inv.invoice_id, .voidInv inv.invoice_id,
                 .createInv t.transactionId,
                 .recordPay newInv.invoice_id (t.totalAmountPaid.getD 0)])
        else
          (500, [.deletePayments inv.invoice_id, .voidInv inv.invoice_id,
                 .createInv t.transactionId,
                 .recordPay newInv.invoice_id (t.totalAmountPaid.getD 0)])
      else
        (200, [.deletePayments inv.invoice_id, .voidInv inv.invoice_id,
               .createInv t.transactionId])

/-- Embeds the no-existing-invoice branch (src/index.js lines 384-395):
create an invoice and record a payment when `Total Amount Paid` is
positive. -/
def processNew (env : HandlerEnv) (t : Transaction) : Nat × List Event :=
  match env.createResult with
  | none => (500, [.createInv t.transactionId])
  | some newInv =>
    if t.totalAmountPaid.getD 0 > 0 then
      if env.recordOk then
        (200, [.createInv t.transactionId,
               .recordPay newInv.invoice_id (t.totalAmountPaid.getD 0)])
      else
        (500, [.createInv t.transactionId,
               .recordPay newInv.invoice_id (t.totalAmountPaid.getD 0)])
    else
      (200, [.createInv t.transactionId])

/-- Embeds the existing-invoice branch (src/index.js lines 318-383): the
zero-line-items check first (line 323), then the change comparison (lines
348-356); an unchanged invoice is left alone (lines 380-382). -/
def processExisting (env : HandlerEnv) (t : Transaction) (inv : Invoice) :
    Nat × List Event :=
  if inv.line_items.isEmpty then
    voidAndRecreate env t inv
  else if invoiceChanged t inv then
    voidAndRecreate env t inv
  else
    (200, [])

/-- Embeds the POST /webhook handler of src/index.js (lines 306-402):
extract the first item of `body.items` (a missing array or first item
throws, caught as a 500 with no ledger call issued), look up the existing
invoice, and dispatch; the outer catch maps every thrown error to status
500. -/
def handleWebhook (env : HandlerEnv) (body : Body) : Nat × List Event :=
  match extractTransaction body with
  | none => (500, [])
  | some t =>
    match env.existingInvoice with
    | some inv => processExisting env t inv
    | none => processNew env t

/-! ## Concrete fixtures used by witnesses and counterexamples -/

/-- Transaction with every optional payload field absent. -/
def txEmpty : Transaction :=
  { transactionId := "T1", patientName := none, services := none,
    servicesLink := none, prices := none, payableAmount := none,
    totalAmountPaid := none, discount := none }

/-- Existing ledger invoice with zero line items. -/
def invEmptyItems : Invoice :=
  { invoice_id := "INV1", reference_number := "T1", customer_id := "CUST1",
    line_items := [] }

/-- Replacement invoice returned by `createInvoice`. -/
def invNew : Invoice :=
  { invoice_id := "INV2", reference_number := "T1", customer_id := "CUST1",
    line_items := [] }

/-- Environment in which every ledger call succeeds and the lookup finds
`invEmptyItems`. -/
def envHappy : HandlerEnv :=
  { existingInvoice := some invEmptyItems, deletePaymentsOk := true,
    voidOk := true, createResult := some invNew, recordOk := true }

/-- Transaction carrying one service "X" priced 5 with payable amount 5. -/
def txMatch : Transaction :=
  { transactionId := "T1", patientName := none,
    services := some [{ value := some "X" }], servicesLink := none,
    prices := some [{ value := some 5 }], payableAmount := some 5,
    totalAmountPaid := none, discount := none }

/-- Existing ledger invoice whose single line item matches `txMatch`. -/
def invMatch : Invoice :=
  { invoice_id := "INV1", reference_number := "T1", customer_id := "CUST1",
    line_items := [{ description := "X", rate := 5 }] }

/-- Environment in which the lookup finds `invMatch`. -/
def envMatch : HandlerEnv :=
  { existingInvoice := some invMatch, deletePaymentsOk := true,
    voidOk := true, createResult := some invNew, recordOk := true }

/-! ## C2: idempotence of an unchanged transaction -/

/-- Counterexample to C2 as stated: the transaction `txEmpty` and the
existing invoice `invEmptyItems` match in the sense of the claim (equal
ordered descriptions, equal totals: both lists are empty and both totals
are 0), yet the handler takes the zero-line-items branch (src/index.js
line 323) and issues ledger writes (payment deletion, void, create)
instead of performing none. -/
theorem handleWebhook_idempotence_cex :
    existingServices invEmptyItems = newServices txEmpty ∧
    existingTotal invEmptyItems = newTotal txEmpty ∧
    handleWebhook envHappy (Body.withItems [txEmpty]) =
      (200, [Event.deletePayments "INV1", Event.voidInv "INV1",
             Event.createInv "T1"]) := by
  refine ⟨rfl, rfl, ?_⟩
  decide

/-- C2 (amended): for a transaction whose existing invoice has at least one
line item and already matches it (equal ordered descriptions and the summed
line rates equal the payable amount), the handler issues zero ledger writes
and responds 200. -/
theorem handleWebhook_idempotent (env : HandlerEnv) (body : Body)
    (t : Transaction) (inv : Invoice)
    (hx : extractTransaction body = some t)
    (hinv : env.existingInvoice = some inv)
    (hne : inv.line_items ≠ [])
    (hdesc : existingServices inv = newServices t)
    (htot : existingTotal inv = newTotal t) :
    handleWebhook env body = (200, []) := by
  have hempty : inv.line_items.isEmpty = false := by
    simpa [List.isEmpty_iff] using hne
  have hchanged : invoiceChanged t inv = false := by
    simp [invoiceChanged, hdesc, htot]
  simp [handleWebhook, hx, hinv, processExisting, hempty, hchanged]

/-- Witness for C2 (amended) at `txMatch` against `invMatch`. -/
theorem handleWebhook_idempotent_witness :
    handleWebhook envMatch (Body.withItems [txMatch]) = (200, []) :=
  handleWebhook_idempotent envMatch (Body.withItems [txMatch]) txMatch
    invMatch rfl rfl (by decide) (by decide)
    (by simp [existingTotal, newTotal, invMatch, txMatch])

/-! ## C3: payment deletion strictly precedes void -/

/-- Ordering inside the void-and-recreate block: whenever a void call for
an invoice id appears in its trace, the first issued call is the payment
deletion for that same id and the void is the second call. -/
theorem voidAndRecreate_order (env : HandlerEnv) (t : Transaction)
    (inv : Invoice) (invoiceId : String)
    (hmem : Event.voidInv invoiceId ∈ (voidAndRecreate env t inv).2) :
    (voidAndRecreate env t inv).2.head? =
      some (Event.deletePayments invoiceId) ∧
    (voidAndRecreate env t inv).2[1]? = some (Event.voidInv invoiceId) := by
  cases hdp : env.deletePaymentsOk with
  | false => simp [voidAndRecreate, hdp] at hmem
  | true =>
    by_cases hid : inv.invoice_id = ""
    · simp [voidAndRecreate, hdp, hid] at hmem
    · cases hvo : env.voidOk with
      | false =>
        simp [voidAndRecreate, hdp, hid, hvo] at hmem ⊢
        simp [hmem]
      | true =>
        cases hcr : env.createResult with
        | none =>
          simp [voidAndRecreate, hdp, hid, hvo, hcr] at hmem ⊢
          simp [hmem]
        | some newInv =>
          by_cases hpaid : t.totalAmountPaid.getD 0 > 0
          · cases hrec : env.recordOk with
            | false =>
              simp [voidAndRecreate, hdp, hid, hvo, hcr, hrec, hpaid] at hmem ⊢
              simp [hmem]
            | true =>
              simp [voidAndRecreate, hdp, hid, hvo, hcr, hrec, hpaid] at hmem ⊢
              simp [hmem]
          · simp [voidAndRecreate, hdp, hid, hvo, hcr, hpaid] at hmem ⊢
            simp [hmem]

/-- Traces of the no-existing-invoice branch never contain a void call. -/
theorem processNew_no_void (env : HandlerEnv) (t : Transaction)
    (invoiceId : String) :
    Event.voidInv invoiceId ∉ (processNew env t).2 := by
  cases hcr : env.createResult with
  | none => simp [processNew, hcr]
  | some newInv =>
    by_cases hpaid : t.totalAmountPaid.getD 0 > 0
    · cases hrec : env.recordOk with
      | false => simp [processNew, hcr, hrec, hpaid]
      | true => simp [processNew, hcr, hrec, hpaid]
    · simp [processNew, hcr, hpaid]

/-- C3: in every execution of the webhook handler whose trace contains a
`voidInvoice` call for some invoice id, the `deletePaymentsForInvoice`
call for that same id is the first issued ledger write and the void is the
second, so the payment deletion happens strictly before the void. -/
theorem handleWebhook_payment_before_void (env : HandlerEnv) (body : Body)
    (invoiceId : String)
    (hmem : Event.voidInv invoiceId ∈ (handleWebhook env body).2) :
    (handleWebhook env body).2.head? =
      some (Event.deletePayments invoiceId) ∧
    (handleWebhook env body).2[1]? = some (Event.voidInv invoiceId) := by
  cases hx : extractTransaction body with
  | none => simp [handleWebhook, hx] at hmem
  | some t =>
    cases hinv : env.existingInvoice with
    | none =>
      rw [handleWebhook, hx] at hmem
      rw [hinv] at hmem
      exact absurd hmem (processNew_no_void env t invoiceId)
    | some inv =>
      rw [handleWebhook, hx] at hmem ⊢
      rw [hinv] at hmem ⊢
      by_cases hempty : inv.line_items.isEmpty = true
      · simp only [processExisting, if_pos hempty] at hmem ⊢
        exact voidAndRecreate_order env t inv invoiceId hmem
      · by_cases hch : invoiceChanged t inv = true
        · simp only [processExisting, if_neg hempty, if_pos hch] at hmem ⊢
          exact voidAndRecreate_order env t inv invoiceId hmem
        · simp only [processExisting, if_neg hempty, if_neg hch] at hmem
          simp at hmem

/-- Witness for C3: a run that voids `invEmptyItems` has the payment
deletion as the first ledger call and the void as the second. -/
theorem handleWebhook_payment_before_void_witness :
    (handleWebhook envHappy (Body.withItems [txEmpty])).2.head? =
      some (Event.deletePayments "INV1") ∧
    (handleWebhook envHappy (Body.withItems [txEmpty])).2[1]? =
      some (Event.voidInv "INV1") :=
  handleWebhook_payment_before_void envHappy (Body.withItems [txEmpty])
    "INV1" (by decide)

/-! ## C4: a payment-deletion failure before a required void aborts -/

/-- C4: on the void-and-recreate path (zero line items or a detected
change), if `deletePaymentsForInvoice` fails, the request aborts with
status 500 and the trace contains neither a void call nor an invoice
creation, so no duplicate live invoice can appear. -/
theorem handleWebhook_delete_fail_aborts (env : HandlerEnv) (body : Body)
    (t : Transaction) (inv : Invoice)
    (hx : extractTransaction body = some t)
    (hinv : env.existingInvoice = some inv)
    (hpath : inv.line_items = [] ∨ invoiceChanged t inv = true)
    (hdel : env.deletePaymentsOk = false) :
    (handleWebhook env body).1 = 500 ∧
    (∀ s : String, Event.voidInv s ∉ (handleWebhook env body).2) ∧
    (∀ s : String, Event.createInv s ∉ (handleWebhook env body).2) := by
  have hvr : voidAndRecreate env t inv =
      (500, [Event.deletePayments inv.invoice_id]) := by
    simp [voidAndRecreate, hdel]
  have hres : handleWebhook env body =
      (500, [Event.deletePayments inv.invoice_id]) := by
    rw [handleWebhook, hx, hinv]
    by_cases hempty : inv.line_items.isEmpty = true
    · simp only [processExisting, if_pos hempty, hvr]
    · rcases hpath with hnil | hch
      · exact absurd (by simp [hnil]) hempty
      · simp only [processExisting, if_neg hempty, if_pos hch, hvr]
  rw [hres]
  simp

/-- Witness for C4: with payment deletion failing against the zero-line-item
invoice `invEmptyItems`, the handler returns 500 and issues no void and no
invoice creation. -/
theorem handleWebhook_delete_fail_aborts_witness :
    (handleWebhook { envHappy with deletePaymentsOk := false }
      (Body.withItems [txEmpty])).1 = 500 ∧
    Event.voidInv "INV1" ∉
      (handleWebhook { envHappy with deletePaymentsOk := false }
        (Body.withItems [txEmpty])).2 ∧
    Event.createInv "T1" ∉
      (handleWebhook { envHappy with deletePaymentsOk := false }
        (Body.withItems [txEmpty])).2 := by
  have h := handleWebhook_delete_fail_aborts
    { envHappy with deletePaymentsOk := false } (Body.withItems [txEmpty])
    txEmpty invEmptyItems rfl rfl (Or.inl rfl) rfl
  exact ⟨h.1, h.2.1 "INV1", h.2.2 "T1"⟩

/-! ## C9: body shapes accepted by the webhook endpoint -/

/-- Counterexample to C9 as stated: the same transaction that is processed
when wrapped as `{ items: [t] }` (one invoice-creation call, status 200)
fails with status 500 and no ledger call at all when sent as a bare
transaction object, because `req.body.items[0]` throws on a body without
an `items` array (src/index.js line 310). -/
theorem handleWebhook_bare_body_cex :
    handleWebhook { envHappy with existingInvoice := none }
      (Body.withItems [txEmpty]) = (200, [Event.createInv "T1"]) ∧
    handleWebhook { envHappy with existingInvoice := none }
      (Body.bare txEmpty) = (500, []) := by
  constructor
  · decide
  · rfl

/-- C9 (amended): the handler accepts only bodies of the form
`{ items: [transaction, ...] }` and processes exactly the first item
(transactions after the first never influence the outcome); a bare
transaction object, or an empty items list, yields a 500 response with no
ledger call. -/
theorem handleWebhook_first_item_only (env : HandlerEnv) (t : Transaction)
    (rest : List Transaction) :
    handleWebhook env (Body.withItems (t :: rest)) =
      handleWebhook env (Body.withItems [t]) ∧
    (∀ t2 : Transaction, handleWebhook env (Body.bare t2) = (500, [])) ∧
    handleWebhook env (Body.withItems []) = (500, []) := by
  refine ⟨rfl, fun t2 => rfl, rfl⟩

/-! ## LedgerClient: recordPayment (src/index.js lines 229-303)

The decision core of `recordPayment` is a pure function of the requested
amount and the balance fetched from the invoice (`parseFloat(balance) || 0`
is `Option Rat` with default 0).  The outcome records the applied amount of
the created payment, when one is created, and the line rate of the created
credit note, when one is created.  The same clamp and early return appear
verbatim in `createPayment` of src/unnamed/part_000 (second variant, lines
420-470) and src/unnamed/part_001 (first variant, lines 162-236, which also
shares the credit-note block). -/

/-- Writes performed by one `recordPayment` call: the applied amount of the
created payment, and the rate of the created credit note, each `none` when
the corresponding record is not created. -/
structure PaymentOutcome where
  payment : Option Rat
  creditNote : Option Rat
deriving DecidableEq, Repr

/-- Embeds `recordPayment(invoiceId, amount, mode)` (src/index.js 229-303):
clamp the amount to the fetched invoice balance, skip entirely when the
clamped amount is not positive, otherwise create the payment and, when the
requested amount strictly exceeds the clamped amount, a credit note for the
difference.  The function is total: the skip path returns normally. -/
def recordPayment (amount : Rat) (fetchedBalance : Option Rat) :
    PaymentOutcome :=
  let invoiceBalance := fetchedBalance.getD 0
  let paymentAmount := min amount invoiceBalance
  if paymentAmount ≤ 0 then
    { payment := none, creditNote := none }
  else
    let overpaymentAmount := amount - paymentAmount
    { payment := some paymentAmount,
      creditNote :=
        if overpaymentAmount > 0 then some overpaymentAmount else none }

/-- C5: for a fetched balance b with 0 < b and a requested amount a with
b < a, `recordPayment` applies exactly b (the clamp min a b equals b) and
creates a credit note of exactly a - b; moreover on every input a credit
note is created only when the requested amount strictly exceeds the
clamped amount. -/
theorem recordPayment_clamp_and_credit (a b : Rat) (hb : 0 < b)
    (hab : b < a) :
    recordPayment a (some b) =
      { payment := some b, creditNote := some (a - b) } ∧
    min a b = b ∧
    (∀ amount : Rat, ∀ bal : Option Rat,
      ((recordPayment amount bal).creditNote).isSome = true →
      min amount (bal.getD 0) < amount) := by
  have hmin : min a b = b := min_eq_right (le_of_lt hab)
  refine ⟨?_, hmin, ?_⟩
  · simp only [recordPayment, Option.getD_some, hmin]
    rw [if_neg (not_le.mpr hb), if_pos (sub_pos.mpr hab)]
  · intro amount bal hcn
    simp only [recordPayment] at hcn
    by_cases hm : min amount (bal.getD 0) ≤ 0
    · rw [if_pos hm] at hcn
      simp at hcn
    · rw [if_neg hm] at hcn
      by_cases hov : amount - min amount (bal.getD 0) > 0
      · linarith
      · simp only [if_neg hov] at hcn
        simp at hcn

/-- Witness for C5 at a = 12, b = 10: the payment applies 10 and the credit
note carries 12 - 10. -/
theorem recordPayment_clamp_and_credit_witness :
    recordPayment 12 (some 10) =
      { payment := some 10, creditNote := some (12 - 10) } :=
  (recordPayment_clamp_and_credit 12 10 (by norm_num) (by norm_num)).1

/-- C10: when the fetched balance is zero or negative, `recordPayment`
creates neither a payment nor a credit note and returns normally, whatever
the requested amount is; the requested excess over a non-positive balance
never produces a credit note. -/
theorem recordPayment_skip_nonpositive (a : Rat) (bal : Option Rat)
    (hb : bal.getD 0 ≤ 0) :
    recordPayment a bal = { payment := none, creditNote := none } := by
  have hm : min a (bal.getD 0) ≤ 0 := le_trans (min_le_right a _) hb
  simp only [recordPayment]
  rw [if_pos hm]

/-- Witness for C10 at a = 5 against a balance of 0. -/
theorem recordPayment_skip_nonpositive_witness :
    recordPayment 5 (some 0) = { payment := none, creditNote := none } :=
  recordPayment_skip_nonpositive 5 (some 0) (by norm_num)

/-! ## LedgerClient: findPaymentByInvoiceId

Two variants exist in the sources.  The verifying variant
(src/unnamed/part_001 first file, lines 528-556, and src/unnamed/part_000
first file, lines 75-92) scans the returned candidates for one whose
`invoices` array lists the target invoice id.  The naive variant
(src/unnamed/part_000 second file, lines 314-329) returns the first
candidate unconditionally.  The candidate list is the `customerpayments`
field of the response; `none` models a response without that field. -/

/-- Application of a payment to one invoice, as listed in the payment
record `invoices` array. -/
structure InvoiceApplication where
  invoice_id : String
deriving DecidableEq, Repr

/-- Customer payment record; `invoices` is `none` when the record has no
`invoices` array (the verifying variant checks `Array.isArray`). -/
structure Payment where
  payment_id : String
  invoices : Option (List InvoiceApplication)
deriving DecidableEq, Repr

/-- Embeds the verifying `findPaymentByInvoiceId(invoiceId, customerId)`
(src/unnamed/part_001 lines 528-556): among the returned candidates, find
one whose `invoices` array contains an application with the target
`invoice_id`; return null when none does. -/
def findPaymentByInvoiceId (resp : Option (List Payment))
    (invoiceId : String) : Option Payment :=
  match resp with
  | none => none
  | some candidates =>
    if candidates.length > 0 then
      match candidates.find? (fun payment =>
          match payment.invoices with
          | some invs => invs.any (fun inv => inv.invoice_id == invoiceId)
          | none => false) with
      | some matchingPayment => some matchingPayment
      | none => none
    else none

/-- Embeds the naive `findPaymentByInvoiceId(invoiceId, customerId)`
(src/unnamed/part_000 lines 314-329): return the first candidate of the
response without verifying its invoice applications (the invoice id only
parametrises the HTTP query). -/
def findPaymentByInvoiceId_firstResult (resp : Option (List Payment)) :
    Option Payment :=
  match resp with
  | none => none
  | some candidates =>
    if candidates.length > 0 then candidates.head? else none

/-- Payment applied only to the unrelated invoice "INV-OTHER". -/
def payOther : Payment :=
  { payment_id := "P1", invoices := some [{ invoice_id := "INV-OTHER" }] }

/-- C6: the verifying variant returns a payment only when its applications
list the target invoice (first conjunct, proved in general), but the naive
variant of src/unnamed/part_000 lines 314-329 violates the claim: on a
candidate list whose only payment is applied to a different invoice, it
returns that first result where the claim requires null (remaining
conjuncts, evaluated at the failing input). -/
theorem findPaymentByInvoiceId_linkage (resp : Option (List Payment))
    (invoiceId : String) :
    (∀ p : Payment, findPaymentByInvoiceId resp invoiceId = some p →
      ∃ invs : List InvoiceApplication, p.invoices = some invs ∧
        ∃ inv ∈ invs, inv.invoice_id = invoiceId) ∧
    findPaymentByInvoiceId (some [payOther]) "INV1" = none ∧
    findPaymentByInvoiceId_firstResult (some [payOther]) = some payOther ∧
    payOther.invoices = some [{ invoice_id := "INV-OTHER" }] := by
  refine ⟨?_, rfl, rfl, rfl⟩
  intro p hp
  match resp with
  | none => simp [findPaymentByInvoiceId] at hp
  | some candidates =>
    simp only [findPaymentByInvoiceId] at hp
    by_cases hlen : candidates.length > 0
    · rw [if_pos hlen] at hp
      cases hfind : candidates.find? (fun payment =>
          match payment.invoices with
          | some invs => invs.any (fun inv => inv.invoice_id == invoiceId)
          | none => false) with
      | none => rw [hfind] at hp; exact absurd hp (by simp)
      | some q =>
        rw [hfind] at hp
        have hq : p = q := by
          have := hp
          simp at this
          exact this.symm
        subst hq
        have hpred := List.find?_some hfind
        cases hinvs : p.invoices with
        | none => rw [hinvs] at hpred; simp at hpred
        | some invs =>
          rw [hinvs] at hpred
          refine ⟨invs, rfl, ?_⟩
          have := List.any_eq_true.mp hpred
          obtain ⟨inv, hmem, heq⟩ := this
          exact ⟨inv, hmem, by simpa using heq⟩
    · rw [if_neg hlen] at hp
      exact absurd hp (by simp)

/-- Payment applied to the invoice "INV1". -/
def payMatch : Payment :=
  { payment_id := "P2", invoices := some [{ invoice_id := "INV1" }] }

/-- Witness for C6: applying the general linkage property at a concrete
response whose matching payment is second in the list shows the returned
record lists the target invoice among its applications. -/
theorem findPaymentByInvoiceId_linkage_witness :
    findPaymentByInvoiceId (some [payOther, payMatch]) "INV1" =
      some payMatch ∧
    (payMatch.invoices.getD []).any
      (fun inv => inv.invoice_id == "INV1") = true := by
  constructor
  · decide
  · obtain ⟨invs, hinvs, inv, hmem, heq⟩ :=
      (findPaymentByInvoiceId_linkage (some [payOther, payMatch]) "INV1").1
        payMatch (by decide)
    rw [hinvs]
    simp only [Option.getD_some, List.any_eq_true]
    exact ⟨inv, hmem, by simp [heq]⟩

/-! ## LedgerClient: createInvoice and updateInvoice payloads

`createInvoice(transaction)` (src/index.js lines 183-226) builds the
invoice payload sent to the ledger; its pure part is embedded as
`createInvoiceData`, parametrised by the customer id that
`findOrCreateCustomer` resolved.  `updateInvoice(invoiceId, transaction)`
(src/unnamed/part_001 second file, lines 574-612) builds the update
payload, embedded as `updateInvoiceData`.  The `date` field (a server-side
clock read) is outside the embedding. -/

/-- Line item of an invoice payload under construction. -/
structure CreatedLineItem where
  description : String
  rate : Rat
  quantity : Rat
deriving DecidableEq, Repr

/-- Embeds the line-item construction shared by `createInvoice`
(src/index.js lines 194-200) and `updateInvoice` (src/unnamed/part_001
lines 576-583): `services.map((service, index) => ...)` with
`description = service.value || "Service"`,
`rate = parseFloat(prices[index]?.value) || 0`, `quantity = 1`. -/
def mkLineItems (services : List ServiceEntry) (prices : List PriceEntry) :
    List CreatedLineItem :=
  services.enum.map (fun p =>
    { description := p.2.value.getD "Service",
      rate := ((prices[p.1]?).bind (fun pr => pr.value)).getD 0,
      quantity := 1 })

/-- Invoice-creation payload (`invoiceData`, src/index.js lines 205-211).
The discount fields are `Option` because the object literal contains no
such keys: they are always `none` here. -/
structure InvoiceData where
  customer_id : String
  reference_number : String
  line_items : List CreatedLineItem
  total : Rat
  discount : Option Rat
  discount_type : Option String
  is_discount_before_tax : Option Bool
deriving DecidableEq, Repr

/-- Embeds the payload built by `createInvoice(transaction)`
(src/index.js lines 183-226), given the customer id resolved by
`findOrCreateCustomer`.  No discount key is ever set. -/
def createInvoiceData (customerId : String) (t : Transaction) :
    InvoiceData :=
  { customer_id := customerId,
    reference_number := t.transactionId,
    line_items := mkLineItems (t.services.getD []) (t.prices.getD []),
    total := t.payableAmount.getD 0,
    discount := none,
    discount_type := none,
    is_discount_before_tax := none }

/-- Invoice-update payload (`invoiceData`, src/unnamed/part_001 lines
590-597). -/
structure UpdateInvoiceData where
  line_items : List CreatedLineItem
  total : Rat
  discount : Rat
  discount_type : String
  is_discount_before_tax : Bool
  reason : String
deriving DecidableEq, Repr

/-- Embeds the payload built by `updateInvoice(invoiceId, transaction)`
(src/unnamed/part_001 lines 574-612): line items come from the
"Services (link)" field, and the entity-level before-tax discount is set
unconditionally to `parseFloat(transaction["Discount"]) || 0`. -/
def updateInvoiceData (t : Transaction) : UpdateInvoiceData :=
  { line_items := mkLineItems (t.servicesLink.getD []) (t.prices.getD []),
    total := t.payableAmount.getD 0,
    discount := t.discount.getD 0,
    discount_type := "entity_level",
    is_discount_before_tax := true,
    reason := "Updating invoice due to payment adjustment" }

/-- Transaction with a positive discount, one service and one price. -/
def txDiscount : Transaction :=
  { transactionId := "T8", patientName := none,
    services := some [{ value := some "X" }], servicesLink := none,
    prices := some [{ value := some 100 }], payableAmount := some 95,
    totalAmountPaid := none, discount := some 5 }

/-- Counterexample to C8 as stated: `txDiscount` has discount 5 > 0, yet
the payload built by `createInvoice` carries no discount at all (no
discount, discount_type or is_discount_before_tax key). -/
theorem createInvoice_no_discount_cex :
    (0 : Rat) < txDiscount.discount.getD 0 ∧
    (createInvoiceData "CUST1" txDiscount).discount = none ∧
    (createInvoiceData "CUST1" txDiscount).discount_type = none ∧
    (createInvoiceData "CUST1" txDiscount).is_discount_before_tax = none := by
  refine ⟨by norm_num [txDiscount], rfl, rfl, rfl⟩

/-- C8 (amended): `createInvoice` builds line items 1:1 from the
service/price pairs (pointwise: description defaults to "Service", a
missing or unparsable price defaults to rate 0, quantity 1), sets the
total to the payable amount, and never applies a discount, even when the
discount amount is positive; the entity-level, before-tax discount is
applied instead by `updateInvoice`, unconditionally, with the
transaction's discount amount (0 when missing). -/
theorem createInvoice_shape (customerId : String) (t : Transaction) :
    (createInvoiceData customerId t).line_items.length =
      (t.services.getD []).length ∧
    (∀ i : Nat, ((createInvoiceData customerId t).line_items)[i]? =
      ((t.services.getD [])[i]?).map (fun s =>
        { description := s.value.getD "Service",
          rate := (((t.prices.getD [])[i]?).bind (fun pr => pr.value)).getD 0,
          quantity := 1 })) ∧
    (createInvoiceData customerId t).total = t.payableAmount.getD 0 ∧
    (createInvoiceData customerId t).reference_number = t.transactionId ∧
    (createInvoiceData customerId t).discount = none ∧
    (∀ t2 : Transaction,
      (updateInvoiceData t2).discount = t2.discount.getD 0 ∧
      (updateInvoiceData t2).discount_type = "entity_level" ∧
      (updateInvoiceData t2).is_discount_before_tax = true) := by
  refine ⟨?_, ?_, rfl, rfl, rfl, fun t2 => ⟨rfl, rfl, rfl⟩⟩
  · simp [createInvoiceData, mkLineItems]
  · intro i
    cases h : (t.services.getD [])[i]? with
    | none => simp [createInvoiceData, mkLineItems, List.getElem?_enum, h]
    | some s => simp [createInvoiceData, mkLineItems, List.getElem?_enum, h]

end ZohoBaserow
